import Mathlib

/-!
Verification of the Asset Publishing Client in src/main.py (GOES-19 image to
Roblox decal pipeline).  The Python functions are shallowly embedded as Lean
functions over a model of Python JSON-like values; network effects (the
results of requests.request calls) are passed in explicitly as data, so every
definition is executable.
-/

set_option maxRecDepth 4096

/-- Model of the Python values that appear in parsed JSON response bodies.
Note that in Python, bool is a subclass of int, so isinstance(True, int) is
True; the embedding keeps bool as its own constructor and the places where
the source does an isinstance int test treat bool accordingly. -/
inductive PyVal where
  | none
  | bool (b : Bool)
  | int (n : Int)
  | str (s : String)
  | dict (entries : List (String × PyVal))
  | list (xs : List PyVal)

/-- Python dict lookup: entries of a dict are an association list with
distinct keys; d.get(k) returns the value of the first matching key. -/
def lookupKey (k : String) : List (String × PyVal) → Option PyVal
  | [] => Option.none
  | (k', v) :: rest => if k' = k then some v else lookupKey k rest

/-- d.get(k) on a dict: the value, or None when the key is absent.
(The source only ever calls .get on parsed JSON objects; non-dict bodies
would raise AttributeError in Python and are not exercised by the claims.) -/
def pyGet (obj : PyVal) (k : String) : PyVal :=
  match obj with
  | .dict es =>
    match lookupKey k es with
    | some v => v
    | Option.none => .none
  | _ => .none

/-- Python `k in d` on a dict: key membership. -/
def pyHasKey (obj : PyVal) (k : String) : Bool :=
  match obj with
  | .dict es => (lookupKey k es).isSome
  | _ => false

/-- Python truthiness of a value (used by `or` chains and `if not x`). -/
def truthy : PyVal → Bool
  | .none => false
  | .bool b => b
  | .int n => n ≠ 0
  | .str s => s ≠ ""
  | .dict es => !es.isEmpty
  | .list xs => !xs.isEmpty

/-- Python `a or b`: a when truthy, else b. -/
def pyOr (a b : PyVal) : PyVal := if truthy a then a else b

/-- Python str(v) for the values the source feeds to str(): None, bool, int
and str.  Containers only reach str() in the terminal-status test, where
the Python repr of a dict or list can never equal one of the status words,
so a fixed placeholder is extensionally faithful there. -/
def pyStr : PyVal → String
  | .none => "None"
  | .bool true => "True"
  | .bool false => "False"
  | .int n => toString n
  | .str s => s
  | .dict _ => "dict"
  | .list _ => "list"

/-- Python s.strip(): drop leading and trailing whitespace.  (List-based so
that it evaluates inside the kernel; Python also strips a few more Unicode
whitespace characters, which never occur in the inputs modelled.) -/
def pyStrip (s : String) : String :=
  String.mk (((s.toList.dropWhile Char.isWhitespace).reverse.dropWhile Char.isWhitespace).reverse)

/-- Python s.startswith(p): p is a prefix of s. -/
def pyStarts (s p : String) : Bool := p.toList.isPrefixOf s.toList

/-- Python s.lower(), for the ASCII strings the source compares. -/
def pyLower (s : String) : String := String.mk (s.toList.map Char.toLower)

/-- Python s.isdigit(): nonempty and all decimal digits.  (Python isdigit
also accepts some non-ASCII digit characters; those never occur in the
inputs modelled.) -/
def pyDigits (s : String) : Bool := s.length > 0 && s.toList.all Char.isDigit

-- ===== extrair_asset_id (src/main.py lines 59-94) =====

/-- The direct-field step of extrair_asset_id for a single key: if the key is
present and its value is an int (including bool, per Python isinstance) it
yields str(value); if the value is a string whose strip() isdigit() it
yields the stripped string; otherwise nothing (the source then moves on to
the next key, and finally to the path candidates). -/
def directKeyVal (obj : PyVal) (key : String) : Option String :=
  match obj with
  | .dict es =>
    match lookupKey key es with
    | some (.int n) => some (toString n)
    | some (.bool b) => some (if b then "True" else "False")
    | some (.str s) => if pyDigits (pyStrip s) then some (pyStrip s) else Option.none
    | some _ => Option.none
    | Option.none => Option.none
  | _ => Option.none

/-- A word character for the regex word-boundary test: the ASCII part of
the Python re word class (letters, digits, underscore). -/
def isWordChar (c : Char) : Bool := c.isAlphanum || c = '_'

/-- Match the tail of the regex r"\bassets/(\d+)\b" at the head of cs
(the boundary before "assets" is checked by the caller): the literal
"assets/", then a maximal run of at least one digit, then a word boundary
(end of string or a non-word character).  A shorter-than-maximal digit run
can never satisfy the trailing boundary, so no backtracking is needed. -/
def matchAssetsHere (cs : List Char) : Option String :=
  if cs.take 7 = "assets/".toList then
    let rest := cs.drop 7
    let ds := rest.takeWhile Char.isDigit
    let after := rest.dropWhile Char.isDigit
    if ds.isEmpty then Option.none
    else
      match after with
      | [] => some (String.mk ds)
      | c :: _ => if isWordChar c then Option.none else some (String.mk ds)
  else Option.none

/-- re.search(r"\bassets/(\d+)\b", s): scan start positions left to right;
prev is the character just before the current position (none at the start),
used for the leading word boundary (the next pattern character is the word
character of "assets", so the boundary needs prev to be absent or
non-word). -/
def searchFrom (prev : Option Char) : List Char → Option String
  | [] => Option.none
  | c :: cs =>
    let bOk := match prev with
      | Option.none => true
      | some p => !isWordChar p
    match (if bOk then matchAssetsHere (c :: cs) else Option.none) with
    | some r => some r
    | Option.none => searchFrom (some c) cs

/-- re.search for the asset-path pattern over a whole string. -/
def searchAssets (s : String) : Option String := searchFrom Option.none s.toList

/-- The candidate path strings extrair_asset_id collects, in source order:
a top-level "path" string, then the "path" string of each of the nested
containers "response", "result", "metadata" when that container is a dict. -/
def subPath (es : List (String × PyVal)) (key : String) : Option String :=
  match lookupKey key es with
  | some (.dict sub) =>
    match lookupKey "path" sub with
    | some (.str s) => some s
    | _ => Option.none
  | _ => Option.none

def candidatesOf (obj : PyVal) : List String :=
  match obj with
  | .dict es =>
    (match lookupKey "path" es with
     | some (.str s) => [s]
     | _ => []) ++ (["response", "result", "metadata"].filterMap (subPath es))
  | _ => []

/-- First candidate on which f succeeds (the for-loop with early return). -/
def firstSome (f : String → Option String) : List String → Option String
  | [] => Option.none
  | s :: rest =>
    match f s with
    | some r => some r
    | Option.none => firstSome f rest

/-- extrair_asset_id: try the direct keys "assetId", "asset_id", "assetID"
in order (each by exact, case-sensitive dict lookup), then scan the path
candidates for the assets/&lt;digits&gt; pattern; None when nothing matches. -/
def extrair_asset_id (obj : PyVal) : Option String :=
  match directKeyVal obj "assetId" with
  | some r => some r
  | Option.none =>
  match directKeyVal obj "asset_id" with
  | some r => some r
  | Option.none =>
  match directKeyVal obj "assetID" with
  | some r => some r
  | Option.none => firstSome searchAssets (candidatesOf obj)

-- ===== validar_asset_id (src/main.py lines 95-104) =====

/-- (data.get("path") or "") of the parsed metadata body: the string when the
field is a string ("" is falsy, so an empty string also yields ""), and ""
when the field is absent or None.  (A truthy non-string value would raise
AttributeError at .strip() in Python; no claim exercises that.) -/
def pathFieldOf (data : PyVal) : String :=
  match pyGet data "path" with
  | .str s => s
  | _ => ""

/-- validar_asset_id, given the parsed JSON body of a successful metadata
GET: path.strip().startswith("assets/" + asset_id).  The GET itself goes
through _http_request; a failing GET raises out of validar_asset_id and is
modelled separately (see PollStep.assetResp). -/
def validar_asset_id_resp (data : PyVal) (asset_id : String) : Bool :=
  pyStarts (pyStrip (pathFieldOf data)) ("assets/" ++ asset_id)

-- quick sanity checks of the embedding
example : extrair_asset_id (PyVal.dict [("assetId", PyVal.int 123)]) = some "123" := by rfl
example :
    extrair_asset_id
      (PyVal.dict [("response", PyVal.dict [("path", PyVal.str "assets/456/versions/2")])]) =
      some "456" := by rfl
example : extrair_asset_id (PyVal.dict [("foo", PyVal.str "bar")]) = Option.none := by rfl
example : extrair_asset_id (PyVal.dict [("assetId", PyVal.bool true)]) = some "True" := by rfl
example : extrair_asset_id (PyVal.dict [("path", PyVal.str "xassets/9")]) = Option.none := by rfl
example : validar_asset_id_resp (PyVal.dict [("path", PyVal.str "assets/456")]) "456" = true := by
  rfl

-- ===== _http_request (src/main.py lines 111-132) =====

/-- The outcome of one call to requests.request inside _http_request: either
the transport layer raised, or a response with a status code and body text
came back (a status of 400 or more is turned into an HTTPError inside the
try block, so it also counts as a failed attempt). -/
inductive HttpAttempt where
  | transportError (msg : String)
  | response (status : Nat) (body : String)

/-- Whether the attempt ends in the except branch of the source loop. -/
def attemptFails : HttpAttempt → Bool
  | .transportError _ => true
  | .response st _ => decide (400 ≤ st)

/-- The exception text captured as last_error for a failing attempt: the
transport message, or the HTTPError text built by the f-string. -/
def attemptExc : HttpAttempt → String
  | .transportError m => m
  | .response st body => toString st ++ ": " ++ body

/-- The final value of _http_request: the first successful response, or the
single aggregated RuntimeError raised after the loop, carrying the retry
count of the message and the last underlying cause (from last_error). -/
inductive RetryOutcome where
  | ok (r : HttpAttempt)
  | aggregated (retries : Nat) (lastCause : Option String)

/-- Python last_error after processing a list of failing attempts, starting
from a previous value. -/
def lastCause (le : Option String) : List HttpAttempt → Option String
  | [] => le
  | o :: rest => lastCause (some (attemptExc o)) rest

/-- The retry loop of _http_request.  outcomes lists, in order, the result
of each requests.request call the loop would make; attempt is the 1-based
loop counter of `for attempt in range(1, retries + 1)`.  Returns the
result together with the list of time.sleep durations executed (the source
sleeps 2 * attempt after a failed attempt when attempt < retries).  When
outcomes is shorter than the number of attempts the loop would still make,
the model stops with the aggregated error (theorems always supply enough
outcomes for that branch not to be exercised). -/
def http_go (retries attempt : Nat) (last_error : Option String) :
    List HttpAttempt → RetryOutcome × List Nat
  | [] => (.aggregated retries last_error, [])
  | o :: rest =>
    if retries < attempt then (.aggregated retries last_error, [])
    else if attemptFails o then
      let r := http_go retries (attempt + 1) (some (attemptExc o)) rest
      (r.1, (if attempt < retries then [2 * attempt] else []) ++ r.2)
    else (.ok o, [])

/-- _http_request with its retry loop started at attempt 1 and no prior
last_error (the source default for retries is MAX_RETRIES = 3). -/
def http_request (retries : Nat) (outcomes : List HttpAttempt) : RetryOutcome × List Nat :=
  http_go retries 1 Option.none outcomes

-- ===== esperar_operation_e_pegar_asset_id (src/main.py lines 182-218) =====

/-- One iteration of the polling loop, as data: the elapsed wall time at the
top of the iteration (time.time() - start), the result of the operation GET
(Except.error models the aggregated RuntimeError of _http_request
propagating, Except.ok the parsed JSON body of a successful response), and
the result of the asset-metadata GET made by validar_asset_id in case an
identifier is extracted on this iteration. -/
structure PollStep where
  elapsed : Nat
  pollResp : Except String PyVal
  assetResp : Except String PyVal

/-- How a run of the polling loop ends: a validated identifier is returned;
the timeout RuntimeError fires (carrying last_json); the response carried
an "error" field; a terminal status was seen without a validable
identifier; or an _http_request RuntimeError propagated uncaught. -/
inductive PollResult where
  | resolved (id : String)
  | timedOut (lastJson : Option PyVal)
  | opError (e : PyVal)
  | doneNoId (data : PyVal)
  | httpExn (msg : String)

/-- Result of one loop iteration: halt with a result, or keep polling (the
parsed body becomes last_json for the next iteration). -/
inductive StepRes where
  | halt (r : PollResult)
  | next (data : PyVal)

/-- status = data.get("status") or data.get("done") or data.get("state"). -/
def statusOf (d : PyVal) : PyVal := pyOr (pyGet d "status") (pyOr (pyGet d "done") (pyGet d "state"))

/-- str(status).lower() in ("done", "completed", "success", "succeeded", "true"). -/
def terminalStatus (d : PyVal) : Bool :=
  ["done", "completed", "success", "succeeded", "true"].contains (pyLower (pyStr (statusOf d)))

/-- The checks the source runs after the identifier branch did not return:
raise on an "error" key, raise on a terminal status without a validated
identifier, otherwise sleep and continue. -/
def afterCheck (data : PyVal) : StepRes :=
  if pyHasKey data "error" then .halt (.opError (pyGet data "error"))
  else if terminalStatus data then .halt (.doneNoId data)
  else .next data

/-- One iteration of the while-loop of esperar_operation_e_pegar_asset_id:
first the timeout test (strictly greater), then the GET (whose propagating
failure aborts the run), then identifier extraction; on an extracted
identifier, validar_asset_id is called (its propagating GET failure also
aborts the run) and a successful validation returns the identifier at
once; an extracted-but-unvalidated identifier falls through to the same
error/terminal checks as the no-identifier case. -/
def pollStep (timeout_sec : Nat) (lastJson : Option PyVal) (s : PollStep) : StepRes :=
  if timeout_sec < s.elapsed then .halt (.timedOut lastJson)
  else
    match s.pollResp with
    | .error m => .halt (.httpExn m)
    | .ok data =>
      match extrair_asset_id data with
      | some id =>
        match s.assetResp with
        | .error m => .halt (.httpExn m)
        | .ok aresp =>
          if validar_asset_id_resp aresp id then .halt (.resolved id)
          else afterCheck data
      | Option.none => afterCheck data

/-- The polling loop over a (finite prefix of the) sequence of iterations;
none means the supplied trace ended before the loop did. -/
def pollLoop (timeout_sec : Nat) (lastJson : Option PyVal) : List PollStep → Option PollResult
  | [] => Option.none
  | s :: rest =>
    match pollStep timeout_sec lastJson s with
    | .halt r => some r
    | .next data => pollLoop timeout_sec (some data) rest

/-- esperar_operation_e_pegar_asset_id, with its default timeout of 240 and
last_json starting as None. -/
def esperar_operation_e_pegar_asset_id (steps : List PollStep) (timeout_sec : Nat := 240) :
    Option PollResult :=
  pollLoop timeout_sec Option.none steps

-- ===== upload_decal_grupo (src/main.py lines 221-257) and main =====

/-- The ways upload_decal_grupo can raise. -/
inductive UploadErr where
  | invalidGroup
  | noOperationId (resp : PyVal)
  | opTimeout (lastJson : Option PyVal)
  | opError (e : PyVal)
  | opDoneNoId (data : PyVal)
  | httpExn (msg : String)
  | modelExhausted

/-- upload_decal_grupo, given the parsed JSON body of a successful create
POST and the polling iterations that follow.  The source reads
data.get("assetId") into asset_id_early and prints it, but never uses it:
the only test is `if not operation_id`, which raises when operationId is
absent or falsy, and otherwise hands control to the polling loop. -/
def upload_decal_grupo (group_id : Int) (uploadResp : PyVal) (steps : List PollStep) :
    Except UploadErr String :=
  if group_id ≤ 0 then .error .invalidGroup
  else
    let operation_id := pyGet uploadResp "operationId"
    if truthy operation_id = false then .error (.noOperationId uploadResp)
    else
      match esperar_operation_e_pegar_asset_id steps with
      | some (.resolved id) => .ok id
      | some (.timedOut j) => .error (.opTimeout j)
      | some (.opError e) => .error (.opError e)
      | some (.doneNoId d) => .error (.opDoneNoId d)
      | some (.httpExn m) => .error (.httpExn m)
      | Option.none => .error .modelExhausted

/-- The externally visible actions of one run of main, in order.  The
tryOverwriteCall and rotateDelete constructors exist so that claims about
an overwrite attempt or a rotation-deletion can be stated; main as written
never emits them. -/
inductive MainEvent where
  | fetchImage
  | transformImage
  | tryOverwriteCall (targetId : String)
  | publishNewCall
  | ledgerWrite (id : String)
  | rotateDelete (id : String)

def isOverwriteEvt : MainEvent → Bool
  | .tryOverwriteCall _ => true
  | _ => false

def isPublishEvt : MainEvent → Bool
  | .publishNewCall => true
  | _ => false

def isWriteEvt : MainEvent → Bool
  | .ledgerWrite _ => true
  | _ => false

def isRotateEvt : MainEvent → Bool
  | .rotateDelete _ => true
  | _ => false

/-- The network data one run of main consumes. -/
structure Env where
  uploadResp : PyVal
  pollSteps : List PollStep

/-- The ways a run of main can fail. -/
inductive RunErr where
  | missingApiKey
  | invalidGroupConfig
  | upload (e : UploadErr)
  | emptyAssetId

/-- main(): build_config (fatal when the api key is empty or the group id is
not positive), then download, transform, upload_decal_grupo, and
salvar_asset_id, which strips the id, raises when it is empty, and writes
it to OUT_FILE.  Returns the event trace and the persisted id or error. -/
def main_run (api_key : String) (group_id : Int) (env : Env) :
    List MainEvent × Except RunErr String :=
  if api_key = "" then ([], .error .missingApiKey)
  else if group_id ≤ 0 then ([], .error .invalidGroupConfig)
  else
    let pre := [MainEvent.fetchImage, MainEvent.transformImage, MainEvent.publishNewCall]
    match upload_decal_grupo group_id env.uploadResp env.pollSteps with
    | .error e => (pre, .error (.upload e))
    | .ok id =>
      let t := pyStrip id
      if t = "" then (pre, .error .emptyAssetId)
      else (pre ++ [MainEvent.ledgerWrite t], .ok t)

/-- Content of the ledger file after a trace of events, starting from its
pre-run content: each ledgerWrite replaces it, nothing else touches it. -/
def ledgerAfter (prev : Option String) : List MainEvent → Option String
  | [] => prev
  | MainEvent.ledgerWrite id :: rest => ledgerAfter (some id) rest
  | _ :: rest => ledgerAfter prev rest

-- ===== spec-side shape predicate (spec 4.2.4), for the refinement in C4 =====

/-- Spec side: a direct field named assetId, asset_id or assetID up to
letter case. -/
def spec_direct_key (k : String) : Bool :=
  pyLower k = "assetid" || pyLower k = "asset_id"

/-- Spec side: an integer or a numeric string (at the Python boundary a bool
is an integer, since bool subclasses int). -/
def spec_direct_val : PyVal → Bool
  | .int _ => true
  | .bool _ => true
  | .str s => pyDigits (pyStrip s)
  | _ => false

/-- Spec side (4.2.4): the response shapes identifier extraction is
specified to recognize — a direct case-insensitive assetId field holding
an integer or numeric string, or one of the known path candidates
containing the assets/&lt;digits&gt; pattern.  This is deliberately at least as
broad as what the code matches, so that a response with none of these
shapes is outside every shape the code recognizes. -/
def spec_known_shape (obj : PyVal) : Bool :=
  match obj with
  | .dict es =>
    es.any (fun kv => spec_direct_key kv.1 && spec_direct_val kv.2) ||
      (candidatesOf obj).any (fun s => (searchAssets s).isSome)
  | _ => false

-- ===== concrete inputs used by the witnesses and counterexamples =====

/-- A create response carrying a usable identifier but no operation id. -/
def c1resp : PyVal := PyVal.dict [("assetId", PyVal.int 123)]

/-- A create response carrying only an operation id. -/
def c1respOp : PyVal := PyVal.dict [("operationId", PyVal.str "op1")]

/-- One poll iteration that resolves id 111. -/
def c1steps : List PollStep :=
  [⟨0, Except.ok (PyVal.dict [("response", PyVal.dict [("path", PyVal.str "assets/111/versions/1")])]),
      Except.ok (PyVal.dict [("path", PyVal.str "assets/111")])⟩]

/-- An environment in which the publish succeeds with id 456. -/
def c2env : Env :=
  ⟨PyVal.dict [("operationId", PyVal.str "op2")],
   [⟨3, Except.ok (PyVal.dict [("response", PyVal.dict [("path", PyVal.str "assets/456/versions/2")])]),
       Except.ok (PyVal.dict [("path", PyVal.str "assets/456")])⟩]⟩

/-- A poll body whose status still reads pending but that carries an
extractable identifier. -/
def c3data : PyVal :=
  PyVal.dict [("status", PyVal.str "pending"),
              ("response", PyVal.dict [("path", PyVal.str "assets/333/versions/1")])]

def c3step : PollStep := ⟨5, Except.ok c3data, Except.ok (PyVal.dict [("path", PyVal.str "assets/333")])⟩

/-- A response matching none of the known identifier shapes. -/
def c4obj : PyVal := PyVal.dict [("foo", PyVal.str "bar"), ("path", PyVal.str "users/77")]

def c5f1 : HttpAttempt := HttpAttempt.transportError "conn reset"

def c5f2 : HttpAttempt := HttpAttempt.response 500 "server error"

def c5ok : HttpAttempt := HttpAttempt.response 200 "body"

def c6f : HttpAttempt := HttpAttempt.transportError "refused"

/-- A poll body with a pending status, no error field and an extractable
identifier 777. -/
def c7data : PyVal :=
  PyVal.dict [("status", PyVal.str "pending"), ("path", PyVal.str "assets/777/versions/1")]

/-- Iteration on which the validation GET itself fails (e.g. the asset
record is not queryable yet and the metadata endpoint keeps answering 404,
so _http_request raises after its retries). -/
def c7stepExn : PollStep := ⟨6, Except.ok c7data, Except.error "Falha na requisicao apos 3 tentativas."⟩

/-- Iteration on which the validation GET succeeds but the declared path
belongs to another asset, so validar_asset_id returns False. -/
def c7stepInvalid : PollStep := ⟨6, Except.ok c7data, Except.ok (PyVal.dict [("path", PyVal.str "assets/999")])⟩

/-- An environment whose polling loop hits the timeout on its first
iteration (241 time units elapsed against the 240 default). -/
def c8env : Env := ⟨PyVal.dict [("operationId", PyVal.str "op8")], [⟨241, Except.ok (PyVal.dict []), Except.ok (PyVal.dict [])⟩]⟩

/-- A direct asset-id field in a casing different from the three literals
the source checks. -/
def c9obj : PyVal := PyVal.dict [("ASSETID", PyVal.int 5)]

-- ===== helper lemmas =====

lemma lookupKey_any (p : String × PyVal → Bool) (es : List (String × PyVal)) :
    ∀ (k : String) (v : PyVal),
      lookupKey k es = some v → p (k, v) = true → es.any p = true := by
  induction es with
  | nil => intro k v h _; simp [lookupKey] at h
  | cons kv rest ih =>
    intro k v h hp
    obtain ⟨k', v'⟩ := kv
    rw [lookupKey] at h
    split at h
    · next hk =>
      cases h
      subst hk
      simp [List.any_cons, hp]
    · next hk =>
      simp [List.any_cons, ih k v h hp]

lemma directKeyVal_shape (es : List (String × PyVal)) (key : String) (r : String)
    (h : directKeyVal (PyVal.dict es) key = some r)
    (hk : spec_direct_key key = true) :
    es.any (fun kv => spec_direct_key kv.1 && spec_direct_val kv.2) = true := by
  simp only [directKeyVal] at h
  cases hl : lookupKey key es with
  | none => rw [hl] at h; exact absurd h (by simp)
  | some v =>
    rw [hl] at h
    have hv : spec_direct_val v = true := by
      cases v with
      | int n => rfl
      | bool b => rfl
      | str s =>
        simp only [spec_direct_val]
        have h' : (if pyDigits (pyStrip s) = true then some (pyStrip s) else Option.none) =
            some r := h
        by_cases hd : pyDigits (pyStrip s) = true
        · exact hd
        · rw [if_neg hd] at h'; exact absurd h' (by simp)
      | none => exact absurd h (by simp)
      | dict es2 => exact absurd h (by simp)
      | list xs => exact absurd h (by simp)
    exact lookupKey_any _ es key v hl (by simp [hk, hv])

lemma firstSome_any (f : String → Option String) (l : List String) :
    ∀ r : String, firstSome f l = some r → l.any (fun s => (f s).isSome) = true := by
  induction l with
  | nil => intro r h; simp [firstSome] at h
  | cons s rest ih =>
    intro r h
    rw [firstSome] at h
    cases hf : f s with
    | some x => simp [List.any_cons, hf]
    | none =>
      rw [hf] at h
      simp [List.any_cons, ih r h]

lemma http_go_success (fails : List HttpAttempt) :
    ∀ (retries a : Nat) (le : Option String) (succ : HttpAttempt) (rest : List HttpAttempt),
      (∀ o ∈ fails, attemptFails o = true) → attemptFails succ = false →
      a + fails.length ≤ retries →
      (http_go retries a le (fails ++ succ :: rest)).1 = RetryOutcome.ok succ := by
  induction fails with
  | nil =>
    intro retries a le succ rest _ hs ha
    simp only [List.nil_append, http_go]
    rw [if_neg (by omega), hs]
    simp
  | cons o fs ih =>
    intro retries a le succ rest hf hs ha
    simp only [List.cons_append, http_go]
    rw [if_neg (by omega), hf o (by simp)]
    simp only [if_true]
    exact ih retries (a + 1) (some (attemptExc o)) succ rest
      (fun o' ho' => hf o' (by simp [ho'])) hs (by simp at ha; omega)

lemma http_go_exhaust (fails : List HttpAttempt) :
    ∀ (retries a : Nat) (le : Option String),
      (∀ o ∈ fails, attemptFails o = true) →
      a + fails.length = retries + 1 →
      (http_go retries a le fails).1 = RetryOutcome.aggregated retries (lastCause le fails) := by
  induction fails with
  | nil => intro retries a le _ _; rfl
  | cons o fs ih =>
    intro retries a le hf ha
    simp only [http_go]
    rw [if_neg (by simp at ha; omega), hf o (by simp)]
    simp only [if_true]
    exact ih retries (a + 1) (some (attemptExc o))
      (fun o' ho' => hf o' (by simp [ho'])) (by simp at ha; omega)

lemma http_go_sleeps (fails : List HttpAttempt) :
    ∀ (retries a : Nat) (le : Option String),
      (∀ o ∈ fails, attemptFails o = true) →
      a + fails.length = retries + 1 →
      (http_go retries a le fails).2 = (List.range (retries - a)).map (fun i => 2 * (a + i)) := by
  induction fails with
  | nil =>
    intro retries a le _ ha
    have h0 : retries - a = 0 := by simp at ha; omega
    rw [h0]
    rfl
  | cons o fs ih =>
    intro retries a le hf ha
    simp only [http_go]
    rw [if_neg (by simp at ha; omega), hf o (by simp)]
    simp only [if_true]
    have hrec := ih retries (a + 1) (some (attemptExc o))
      (fun o' ho' => hf o' (by simp [ho'])) (by simp at ha; omega)
    show (if a < retries then [2 * a] else []) ++
        (http_go retries (a + 1) (some (attemptExc o)) fs).2 = _
    rw [hrec]
    by_cases hlt : a < retries
    · rw [if_pos hlt]
      have hr : retries - a = (retries - (a + 1)) + 1 := by omega
      rw [hr, List.range_succ_eq_map]
      simp only [List.map_cons, List.map_map, Nat.add_zero, List.singleton_append]
      have hfg : ((fun i => 2 * (a + i)) ∘ Nat.succ) = (fun i : Nat => 2 * ((a + 1) + i)) :=
        funext fun i => by simp [Function.comp]; omega
      rw [hfg]
    · rw [if_neg hlt]
      have h0 : retries - a = 0 := by omega
      have h1 : retries - (a + 1) = 0 := by omega
      rw [h0, h1]
      rfl

lemma lastCause_getLast (fails : List HttpAttempt) :
    ∀ (le : Option String) (last : HttpAttempt),
      fails.getLast? = some last → lastCause le fails = some (attemptExc last) := by
  induction fails with
  | nil => intro le last h; simp at h
  | cons o fs ih =>
    intro le last h
    cases fs with
    | nil =>
      simp [List.getLast?_singleton] at h
      subst h
      rfl
    | cons o2 fs2 =>
      rw [List.getLast?_cons_cons] at h
      exact ih (some (attemptExc o)) last h

lemma afterCheck_ne_resolved (data : PyVal) (id : String) :
    afterCheck data ≠ StepRes.halt (PollResult.resolved id) := by
  unfold afterCheck
  split_ifs <;> simp

lemma pollLoop_resolved (timeout : Nat) (steps : List PollStep) :
    ∀ (lj : Option PyVal) (id : String),
      pollLoop timeout lj steps = some (PollResult.resolved id) →
      ∃ s ∈ steps, ∃ data aresp,
        s.pollResp = Except.ok data ∧ extrair_asset_id data = some id ∧
        s.assetResp = Except.ok aresp ∧ validar_asset_id_resp aresp id = true := by
  induction steps with
  | nil => intro lj id h; simp [pollLoop] at h
  | cons s rest ih =>
    intro lj id h
    rw [pollLoop] at h
    cases hps : pollStep timeout lj s with
    | next data =>
      rw [hps] at h
      obtain ⟨s', hs', hrest⟩ := ih (some data) id h
      exact ⟨s', List.mem_cons_of_mem s hs', hrest⟩
    | halt r =>
      rw [hps] at h
      have hr : r = PollResult.resolved id := by
        cases h
        rfl
      subst hr
      obtain ⟨el, pr, ar⟩ := s
      unfold pollStep at hps
      by_cases ht : timeout < el
      · rw [if_pos ht] at hps
        simp at hps
      rw [if_neg ht] at hps
      cases pr with
      | error m => simp at hps
      | ok data =>
        cases hex : extrair_asset_id data with
        | none =>
          have hps' : afterCheck data = StepRes.halt (PollResult.resolved id) := by
            rw [← hps]
            simp only [hex]
          exact absurd hps' (afterCheck_ne_resolved _ _)
        | some id' =>
          cases ar with
          | error m =>
            have hps' : StepRes.halt (PollResult.httpExn m) =
                StepRes.halt (PollResult.resolved id) := by
              rw [← hps]
              simp only [hex]
            simp at hps'
          | ok aresp =>
            have hps' : (if validar_asset_id_resp aresp id' = true
                then StepRes.halt (PollResult.resolved id')
                else afterCheck data) = StepRes.halt (PollResult.resolved id) := by
              rw [← hps]
              simp only [hex]
            by_cases hv : validar_asset_id_resp aresp id' = true
            · rw [if_pos hv] at hps'
              have hid : id' = id := by
                cases hps'
                rfl
              subst hid
              exact ⟨⟨el, Except.ok data, Except.ok aresp⟩, List.mem_cons_self _ _,
                data, aresp, rfl, hex, rfl, hv⟩
            · rw [if_neg hv] at hps'
              exact absurd hps' (afterCheck_ne_resolved _ _)

-- ===== claim theorems =====

/-- C1 counterexample: the claim that a create response already containing a
usable identifier is returned synchronously is false.  For the concrete
response with assetId 123 and no operationId, upload_decal_grupo raises the
UploadRejected-style error even though the response carries a usable,
extractable identifier. -/
theorem upload_ignores_sync_asset_id :
    upload_decal_grupo 1 c1resp [] = .error (UploadErr.noOperationId c1resp) ∧
    extrair_asset_id c1resp = some "123" := ⟨rfl, rfl⟩

/-- C1 (amended): upload_decal_grupo accepts one response shape from the
create endpoint: when the response carries a truthy operationId it proceeds
to the polling protocol (and returns the id the polling resolves), and it
fails with the UploadRejected-style error whenever operationId is absent or
falsy, even when the response contains an asset identifier; it never
returns an identifier synchronously. -/
theorem upload_response_shape (g : Int) (hg : 0 < g) (resp : PyVal) (steps : List PollStep) :
    (truthy (pyGet resp "operationId") = false →
      upload_decal_grupo g resp steps = .error (UploadErr.noOperationId resp)) ∧
    (∀ id, truthy (pyGet resp "operationId") = true →
      esperar_operation_e_pegar_asset_id steps = some (PollResult.resolved id) →
      upload_decal_grupo g resp steps = .ok id) := by
  constructor
  · intro hop
    unfold upload_decal_grupo
    rw [if_neg (by omega), if_pos hop]
  · intro id hop hres
    unfold upload_decal_grupo
    rw [if_neg (by omega), if_neg (by simp [hop]), hres]

theorem upload_response_shape_witness :
    upload_decal_grupo 1 c1respOp c1steps = .ok "111" :=
  (upload_response_shape 1 (by omega) c1respOp c1steps).2 "111" (by rfl) (by rfl)

/-- C2 counterexample: the claim that a successful publish is followed by a
ledger write and then a rotation of the old id is false.  In this concrete
run the publish succeeds and the ledger is written, but the trace contains
no rotation-deletion at all (and no overwrite attempt ever happens). -/
theorem publish_success_without_rotation :
    main_run "k" 1 c2env =
      ([.fetchImage, .transformImage, .publishNewCall, .ledgerWrite "456"], .ok "456") ∧
    (main_run "k" 1 c2env).1.countP isRotateEvt = 0 ∧
    (main_run "k" 1 c2env).1.countP isOverwriteEvt = 0 := ⟨rfl, rfl, rfl⟩

/-- C2 (amended): main never calls an overwrite and never rotates or deletes
an old id; it calls publishNew (upload_decal_grupo) at most once per run
(exactly once in any run that passes configuration), and when the publish
succeeds, the run performs exactly fetch, transform, publish and the ledger
write of the new id, in that order, with no rotation after the write. -/
theorem main_sequence (api_key : String) (g : Int) (env : Env) :
    ((main_run api_key g env).1.countP isOverwriteEvt = 0) ∧
    ((main_run api_key g env).1.countP isRotateEvt = 0) ∧
    ((main_run api_key g env).1.countP isPublishEvt ≤ 1) ∧
    (∀ id, (main_run api_key g env).2 = Except.ok id →
      (main_run api_key g env).1 =
        [.fetchImage, .transformImage, .publishNewCall, .ledgerWrite id]) := by
  unfold main_run
  by_cases h1 : api_key = ""
  · rw [if_pos h1]
    exact ⟨rfl, rfl, by simp, fun id h => by simp at h⟩
  rw [if_neg h1]
  by_cases h2 : g ≤ 0
  · rw [if_pos h2]
    exact ⟨rfl, rfl, by simp, fun id h => by simp at h⟩
  rw [if_neg h2]
  cases hup : upload_decal_grupo g env.uploadResp env.pollSteps with
  | error e => exact ⟨rfl, rfl, Nat.le_refl 1, fun id h => by simp at h⟩
  | ok uid =>
    simp only
    by_cases h3 : pyStrip uid = ""
    · rw [if_pos h3]
      exact ⟨rfl, rfl, Nat.le_refl 1, fun id h => by simp at h⟩
    · rw [if_neg h3]
      refine ⟨rfl, rfl, Nat.le_refl 1, ?_⟩
      intro id h
      have hid : pyStrip uid = id := by
        simpa using h
      subst hid
      rfl

theorem main_sequence_witness :
    (main_run "k" 1 c2env).1 =
      [.fetchImage, .transformImage, .publishNewCall, .ledgerWrite "456"] :=
  (main_sequence "k" 1 c2env).2.2.2 "456" (by rfl)

/-- C3: in the polling loop, a poll response whose status field reads
"pending" (a non-terminal value) but from which an identifier is extracted
and successfully validated resolves the operation immediately: the loop
returns that identifier on that same iteration, for any previous last_json
and whatever iterations would have followed. -/
theorem identifier_before_status (t el : Nat) (data aresp : PyVal)
    (rest : List PollStep) (lj : Option PyVal) (id : String)
    (htime : el ≤ t)
    (hpending : pyGet data "status" = PyVal.str "pending")
    (hex : extrair_asset_id data = some id)
    (hval : validar_asset_id_resp aresp id = true) :
    pollLoop t lj (⟨el, Except.ok data, Except.ok aresp⟩ :: rest) =
      some (PollResult.resolved id) ∧
    terminalStatus data = false := by
  constructor
  · rw [pollLoop]
    have hstep : pollStep t lj ⟨el, Except.ok data, Except.ok aresp⟩ =
        StepRes.halt (PollResult.resolved id) := by
      unfold pollStep
      rw [if_neg (by dsimp only; omega)]
      simp only [hex]
      rw [if_pos hval]
    rw [hstep]
  · unfold terminalStatus statusOf
    rw [hpending]
    rfl

theorem identifier_before_status_witness :
    pollLoop 240 Option.none
        (⟨5, Except.ok c3data, Except.ok (PyVal.dict [("path", PyVal.str "assets/333")])⟩ :: []) =
      some (PollResult.resolved "333") ∧
    terminalStatus c3data = false :=
  identifier_before_status 240 5 c3data (PyVal.dict [("path", PyVal.str "assets/333")]) []
    Option.none "333" (by omega) (by rfl) (by rfl) (by rfl)

/-- C7 counterexample: the claim that a validation failure (including the
asset record not yet being queryable) never by itself aborts the run is
false.  On this concrete poll the identifier 777 is extracted, the body has
no error field and a non-terminal "pending" status, yet the run aborts,
because the validation GET fails (the metadata endpoint keeps answering an
error status, e.g. 404 for a not-yet-queryable record) and the aggregated
RuntimeError of _http_request propagates out of the loop. -/
theorem validation_get_failure_aborts :
    pollLoop 240 Option.none [c7stepExn] =
      some (PollResult.httpExn "Falha na requisicao apos 3 tentativas.") ∧
    extrair_asset_id c7data = some "777" ∧
    pyHasKey c7data "error" = false ∧
    terminalStatus c7data = false := ⟨rfl, rfl, rfl, rfl⟩

/-- C7 (amended): when validar_asset_id returns False - the metadata GET
succeeded but its declared path does not start with assets/&lt;id&gt; - the loop
treats the operation as not yet resolved and continues polling on the next
iteration (provided the body has no error field and a non-terminal status);
an extracted identifier is returned by the loop, and hence ever persisted,
only when its validation succeeded on some iteration; but when the
validation GET itself fails, the retry-exhausted exception aborts the run
on that same poll. -/
theorem validation_failure_behavior (t el : Nat) (data aresp : PyVal)
    (rest : List PollStep) (lj : Option PyVal) (id : String)
    (htime : el ≤ t)
    (hex : extrair_asset_id data = some id)
    (hval : validar_asset_id_resp aresp id = false)
    (herr : pyHasKey data "error" = false)
    (hterm : terminalStatus data = false) :
    (pollLoop t lj (⟨el, Except.ok data, Except.ok aresp⟩ :: rest) =
       pollLoop t (some data) rest) ∧
    (∀ (steps : List PollStep) (lj' : Option PyVal) (id' : String),
       pollLoop t lj' steps = some (PollResult.resolved id') →
       ∃ s ∈ steps, ∃ d a, s.pollResp = Except.ok d ∧ extrair_asset_id d = some id' ∧
         s.assetResp = Except.ok a ∧ validar_asset_id_resp a id' = true) ∧
    (∀ m : String,
       pollLoop t lj (⟨el, Except.ok data, Except.error m⟩ :: rest) =
         some (PollResult.httpExn m)) := by
  refine ⟨?_, fun steps lj' id' h => pollLoop_resolved t steps lj' id' h, ?_⟩
  · rw [pollLoop]
    have hstep : pollStep t lj ⟨el, Except.ok data, Except.ok aresp⟩ = StepRes.next data := by
      unfold pollStep
      rw [if_neg (by dsimp only; omega)]
      simp only [hex]
      rw [if_neg (by simp [hval])]
      unfold afterCheck
      rw [if_neg (by simp [herr]), if_neg (by simp [hterm])]
    rw [hstep]
  · intro m
    rw [pollLoop]
    have hstep : pollStep t lj ⟨el, Except.ok data, Except.error m⟩ =
        StepRes.halt (PollResult.httpExn m) := by
      unfold pollStep
      rw [if_neg (by dsimp only; omega)]
      simp only [hex]
    rw [hstep]

theorem validation_failure_behavior_witness :
    pollLoop 240 Option.none
        (⟨6, Except.ok c7data, Except.ok (PyVal.dict [("path", PyVal.str "assets/999")])⟩ :: []) =
      pollLoop 240 (some c7data) [] :=
  (validation_failure_behavior 240 6 c7data (PyVal.dict [("path", PyVal.str "assets/999")]) []
    Option.none "777" (by omega) (by rfl) (by rfl) (by rfl) (by rfl)).1

/-- C8: when the polling loop hits its timeout (no validated identifier, no
explicit error and no terminal status were reached in time), the run fails
with the timeout error and the ledger file keeps its pre-run content: the
trace holds no ledger write at all. -/
theorem timeout_leaves_ledger (api_key : String) (g : Int) (env : Env)
    (prev : Option String) (j : Option PyVal)
    (hk : api_key ≠ "") (hg : 0 < g)
    (hop : truthy (pyGet env.uploadResp "operationId") = true)
    (ht : esperar_operation_e_pegar_asset_id env.pollSteps = some (PollResult.timedOut j)) :
    (main_run api_key g env).2 = .error (RunErr.upload (UploadErr.opTimeout j)) ∧
    ((main_run api_key g env).1.countP isWriteEvt = 0) ∧
    ledgerAfter prev (main_run api_key g env).1 = prev := by
  have hup : upload_decal_grupo g env.uploadResp env.pollSteps =
      .error (UploadErr.opTimeout j) := by
    unfold upload_decal_grupo
    rw [if_neg (by omega), if_neg (by simp [hop]), ht]
  unfold main_run
  rw [if_neg hk, if_neg (by omega), hup]
  exact ⟨rfl, rfl, rfl⟩

theorem timeout_leaves_ledger_witness :
    (main_run "k" 1 c8env).2 = .error (RunErr.upload (UploadErr.opTimeout Option.none)) ∧
    ((main_run "k" 1 c8env).1.countP isWriteEvt = 0) ∧
    ledgerAfter (some "old") (main_run "k" 1 c8env).1 = some "old" :=
  timeout_leaves_ledger "k" 1 c8env (some "old") Option.none (by decide) (by omega)
    (by rfl) (by rfl)

/-- C4: identifier extraction satisfies the reference cases: a direct field
assetId: 123 extracts "123"; the nested response path assets/456/versions/2
extracts "456"; and any response matching none of the known shapes (per the
spec-side predicate spec_known_shape, which is at least as broad as what
the code matches) extracts none - and, being a total Lean function, never
raises. -/
theorem extraction_reference_cases :
    extrair_asset_id (PyVal.dict [("assetId", PyVal.int 123)]) = some "123" ∧
    extrair_asset_id
        (PyVal.dict [("response", PyVal.dict [("path", PyVal.str "assets/456/versions/2")])]) =
      some "456" ∧
    (∀ obj : PyVal, spec_known_shape obj = false → extrair_asset_id obj = Option.none) := by
  refine ⟨by rfl, by rfl, ?_⟩
  intro obj h
  cases obj with
  | dict es =>
    simp only [spec_known_shape, Bool.or_eq_false_iff] at h
    obtain ⟨hA, hB⟩ := h
    have hd : ∀ key, spec_direct_key key = true →
        directKeyVal (PyVal.dict es) key = Option.none := by
      intro key hkey
      cases hdk : directKeyVal (PyVal.dict es) key with
      | none => rfl
      | some r => exact absurd (directKeyVal_shape es key r hdk hkey) (by simp [hA])
    have h1 := hd "assetId" (by rfl)
    have h2 := hd "asset_id" (by rfl)
    have h3 := hd "assetID" (by rfl)
    have h4 : firstSome searchAssets (candidatesOf (PyVal.dict es)) = Option.none := by
      cases hfs : firstSome searchAssets (candidatesOf (PyVal.dict es)) with
      | none => rfl
      | some r =>
        have hc := firstSome_any searchAssets (candidatesOf (PyVal.dict es)) r hfs
        rw [hB] at hc
        exact absurd hc (by simp)
    simp only [extrair_asset_id, h1, h2, h3, h4]
  | none => rfl
  | bool b => rfl
  | int n => rfl
  | str s => rfl
  | list xs => rfl

theorem extraction_reference_cases_witness :
    extrair_asset_id c4obj = Option.none :=
  extraction_reference_cases.2.2 c4obj (by rfl)

/-- C5: the retry bound of _http_request: for any list of failing attempts
shorter than the retry budget followed by a successful attempt, the layer
returns that success; after a full budget of consecutive failures it
produces exactly one aggregated failure carrying the last underlying
cause (the result is that single value, so no intermediate exception
escapes). -/
theorem http_retry_bound (retries : Nat) :
    (∀ (fails : List HttpAttempt) (succ : HttpAttempt) (rest : List HttpAttempt),
      (∀ o ∈ fails, attemptFails o = true) → attemptFails succ = false →
      fails.length < retries →
      (http_request retries (fails ++ succ :: rest)).1 = RetryOutcome.ok succ) ∧
    (∀ (fails : List HttpAttempt) (last : HttpAttempt),
      (∀ o ∈ fails, attemptFails o = true) →
      fails.length = retries → fails.getLast? = some last →
      (http_request retries fails).1 =
        RetryOutcome.aggregated retries (some (attemptExc last))) := by
  constructor
  · intro fails succ rest hf hs hlen
    exact http_go_success fails retries 1 Option.none succ rest hf hs (by omega)
  · intro fails last hf hlen hlast
    rw [http_request, http_go_exhaust fails retries 1 Option.none hf (by omega),
      lastCause_getLast fails Option.none last hlast]

theorem http_retry_bound_witness :
    (http_request 3 ([c5f1, c5f2] ++ c5ok :: [])).1 = RetryOutcome.ok c5ok ∧
    (http_request 3 [c5f1, c5f2, c5f2]).1 =
      RetryOutcome.aggregated 3 (some (attemptExc c5f2)) :=
  ⟨(http_retry_bound 3).1 [c5f1, c5f2] c5ok [] (by decide) (by rfl) (by decide),
   (http_retry_bound 3).2 [c5f1, c5f2, c5f2] c5f2 (by decide) (by rfl) (by rfl)⟩

/-- C6: linear backoff: in a run of the retry loop whose attempts all fail,
the executed sleeps are exactly 2 * n time units after the n-th failed
attempt for every n strictly below the retry budget, in order, and there
is no sleep after the final failed attempt (the backoff base of the source
is the constant 2). -/
theorem http_retry_backoff (retries : Nat) (fails : List HttpAttempt)
    (hf : ∀ o ∈ fails, attemptFails o = true) (hlen : fails.length = retries) :
    (http_request retries fails).2 = (List.range (retries - 1)).map (fun i => 2 * (i + 1)) := by
  rw [http_request, http_go_sleeps fails retries 1 Option.none hf (by omega)]
  have hfg : (fun i => 2 * (1 + i)) = (fun i : Nat => 2 * (i + 1)) :=
    funext fun i => by omega
  rw [hfg]

theorem http_retry_backoff_witness :
    (http_request 3 [c6f, c6f, c6f]).2 = (List.range (3 - 1)).map (fun i => 2 * (i + 1)) :=
  http_retry_backoff 3 [c6f, c6f, c6f] (by decide) (by rfl)

/-- C9 counterexample: the claim that the direct asset-id field is
recognized case-insensitively is false.  The key "ASSETID" is equal to
"assetid" up to letter case and holds an integer, yet extraction returns
none for it: the source compares against the three literal spellings
only. -/
theorem case_sensitive_direct_key :
    extrair_asset_id c9obj = Option.none ∧ pyLower "ASSETID" = "assetid" := ⟨rfl, rfl⟩

/-- C9 (amended): the direct-field check of identifier extraction matches
exactly the three literal, case-sensitive spellings assetId, asset_id and
assetID: a singleton dict with one of those keys holding an integer (or a
numeric string) yields that value, while any other casing, such as
ASSETID, is not recognized by the direct-field check. -/
theorem direct_key_spellings (k : String) (n : Int) (s : String)
    (hk : k = "assetId" ∨ k = "asset_id" ∨ k = "assetID") :
    extrair_asset_id (PyVal.dict [(k, PyVal.int n)]) = some (toString n) ∧
    (pyDigits (pyStrip s) = true →
      extrair_asset_id (PyVal.dict [(k, PyVal.str s)]) = some (pyStrip s)) := by
  rcases hk with h | h | h <;> subst h <;>
    exact ⟨by rfl, fun hs => by simp [extrair_asset_id, directKeyVal, lookupKey, hs]⟩

theorem direct_key_spellings_witness :
    extrair_asset_id (PyVal.dict [("asset_id", PyVal.int 88)]) = some (toString (88 : Int)) ∧
    extrair_asset_id (PyVal.dict [("asset_id", PyVal.str " 42 ")]) = some (pyStrip " 42 ") :=
  ⟨(direct_key_spellings "asset_id" 88 " 42 " (Or.inr (Or.inl rfl))).1,
   (direct_key_spellings "asset_id" 88 " 42 " (Or.inr (Or.inl rfl))).2 (by rfl)⟩

/-- C10: because Python bool subclasses int, a boolean in a direct asset-id
field passes the isinstance int test, and str(True) is "True": extraction
on the input with assetId: true returns the non-numeric string "True"
rather than none. -/
theorem bool_asset_id_extraction :
    extrair_asset_id (PyVal.dict [("assetId", PyVal.bool true)]) = some "True" := rfl
